import Mathlib

/-!
# Verification of the `xdgpspconf` location-discovery and config I/O code

Shallow embedding of the python package `xdgpspconf` (files `base.py`,
`config.py`, `config_io.py`).  Paths are modelled as lists of components
(deepest component first, `[]` is the filesystem root `/`); the filesystem,
the environment and the format parsers are explicit oracle states, following
the spec's declaration that permission checks, platform lookups and the four
format parser libraries are opaque collaborators.  The POSIX branches of the
platform switches are embedded (the Windows branches are marked
`pragma: no cover` in the sources).
-/

set_option autoImplicit false

/-- An absolute filesystem path: its components with the deepest one first.
`[]` is the root `/`; the parent of a path is its tail. -/
abbrev PyPath := List String

/-- Split a character list on a separator (`str.split(sep)` semantics). -/
def splitOnCharAux (sep : Char) : List Char → List Char → List (List Char)
  | [], cur => [cur.reverse]
  | c :: rest, cur =>
    if c == sep then cur.reverse :: splitOnCharAux sep rest []
    else splitOnCharAux sep rest (c :: cur)

/-- `str.split(sep)` for a one-character separator. -/
def pySplit (s : String) (sep : Char) : List String :=
  (splitOnCharAux sep s.data []).map String.mk

/-- `Path(s)` for a string without a drive: split on `/` and drop empty
components.  Environment-supplied path strings are modelled as absolute. -/
def pathOfString (s : String) : PyPath :=
  ((pySplit s '/').filter (fun c => !(c == ""))).reverse

/-- Does the string denote an absolute path? -/
def startsWithSlash (s : String) : Bool :=
  match s.data with
  | [] => false
  | c :: _ => c == '/'

/-- `p / s` of `pathlib`: an absolute right operand replaces the left one. -/
def pathJoin (p : PyPath) (s : String) : PyPath :=
  if startsWithSlash s then pathOfString s else pathOfString s ++ p

/-- `str(Path)`. -/
def pathStr (p : PyPath) : String :=
  "/" ++ String.intercalate ("/") p.reverse

/-- `Path.name`; the root has name `''`. -/
def pathName : PyPath → String
  | [] => ""
  | n :: _ => n

/-- `PurePath.suffix` of a single component, as in CPython's `pathlib`:
the part from the last dot, unless that dot is the first or the last
character of the name. -/
def suffixOfName (name : String) : String :=
  match name.data.reverse.findIdx? (fun c => c == '.') with
  | none => ""
  | some j =>
    let n := name.data.length
    let i := n - 1 - j
    if 0 < i ∧ i < n - 1 then String.mk (name.data.drop i) else ""

/-- `Path.suffix`. -/
def pySuffix (p : PyPath) : String :=
  suffixOfName (pathName p)

/-- `PurePath.with_suffix` on a single component: drop the old suffix (when
there is one) and append the new one. -/
def withSuffixName (name ext : String) : String :=
  let old := suffixOfName name
  if old = "" then name ++ ext
  else String.mk (name.data.take (name.data.length - old.data.length)) ++ ext

/-- `Path.with_suffix`.  (`pathlib` raises on the root, which none of the
embedded call sites reach; the root is returned unchanged.) -/
def withSuffix (p : PyPath) (ext : String) : PyPath :=
  match p with
  | [] => []
  | n :: rest => withSuffixName n ext :: rest

/-- Does `needle` start `hay`? -/
def startsWithList : List Char → List Char → Bool
  | [], _ => true
  | _ :: _, [] => false
  | a :: as, b :: bs => a == b && startsWithList as bs

/-- Does `needle` occur inside `hay`? -/
def containsList (needle : List Char) : List Char → Bool
  | [] => needle.isEmpty
  | hay@(_ :: rest) => startsWithList needle hay || containsList needle rest

/-- Python's substring test `needle in hay`. -/
def pyIn (needle hay : String) : Bool :=
  containsList needle.data hay.data

/-- `str.upper()` (ASCII). -/
def pyUpper (s : String) : String :=
  String.mk (s.data.map Char.toUpper)

/-- Python `dict` assignment `d[k] = v`: replace the value in place when the
key exists, append the pair otherwise. -/
def pyDictInsert {α β : Type} [DecidableEq α] (d : List (α × β)) (k : α) (v : β) :
    List (α × β) :=
  if d.any (fun kv => decide (kv.1 = k)) then
    d.map (fun kv => if kv.1 = k then (k, v) else kv)
  else d ++ [(k, v)]

/-- A parsed configuration mapping / a keyword-argument mapping.  Values are
opaque and modelled as strings. -/
abbrev Config := List (String × String)

/-- Python `{**a, **b}` / `a.update(b)`: insert every pair of `b` into `a`. -/
def pyMergeDict (a b : Config) : Config :=
  b.foldl (fun acc kv => pyDictInsert acc kv.1 kv.2) a

/-- `kwargs['mode'] = kwargs.get('mode', v)`: keep the dict when `mode` is
present, append `("mode", v)` otherwise. -/
def setDefaultMode (perm : Config) (v : String) : Config :=
  if (perm.lookup ("mode")).isSome then perm else perm ++ [("mode", v)]

/-- The keyword names forwarded to `fs_perm` by `get_loc`/`get_conf`. -/
def permFilterKeys : List String :=
  ["mode", "dir_fs", "effective_ids", "follow_symlinks"]

/-- The dict comprehension keeping only `fs_perm` keywords. -/
def restrictPerm (kwperm : Config) : Config :=
  kwperm.filter (fun kv => permFilterKeys.contains kv.1)

/-- `{**self.permargs, **permargs}` as built by `get_loc` and `get_conf`. -/
def mergedPermargs (instPerm kwperm : Config) : Config :=
  pyMergeDict instPerm (restrictPerm kwperm)

/-- Python exceptions that the embedded code raises or catches. -/
inductive PyErr where
  | fileNotFound
  | permission
  | isADirectory
  | badConf
  | json5Error
  | tomlDecodeError
  | configparserError
  | typeError
  | valueError
  deriving DecidableEq

/-- What the four opaque format parsers produce on one file's bytes
(spec §1 treats each parser as an opaque `parse(bytes) -> mapping`).
`none` is that parser's parse failure; for yaml it also covers
`yaml.safe_load` returning `None` (both surface as `BadConf`-equivalent
failures at every call site).  `tomlSec s` is `toml.load(...).get(s, {})`;
`iniSec s` is `parse_ini`'s section extraction for section `s`. -/
structure Content where
  yaml : Option Config := none
  json : Option Config := none
  toml : Option Config := none
  tomlSec : String → Option Config := fun _ => none
  ini : Option Config := none
  iniSec : String → Option Config := fun _ => none

/-- The filesystem oracle: file-existence, mountpoints, the (opaque, spec §1)
`fs_perm` accessibility predicate, the result of opening and parsing a file,
and whether opening a path for writing raises.  The root `/` is always a
mountpoint, as on a real system — the source's ancestor walk relies on it. -/
structure Fs where
  isFile : PyPath → Bool
  mount : PyPath → Bool
  perm : PyPath → Config → Bool
  read : PyPath → Except PyErr Content
  writeErr : PyPath → Option PyErr
  mount_root : mount [] = true

/-- The environment oracle: `$HOME`, the current directory and the
environment variables. -/
structure Env where
  home : PyPath
  cwd : PyPath
  vars : String → Option String

/-- `XdgVar` of `base.py` (the POSIX member of `PlfmXdg`). -/
structure XdgVar where
  var : String := ""
  dirs : Option String := none
  root : List String := []
  default : List String := []

/-- The value bound to the `trace_pwd` keyword when it is truthy. -/
inductive TracePwd where
  | pwdTrue
  | pwdPath (p : PyPath)

/-- The keyword arguments threaded through `get_loc` / `get_conf` /
`safe_config` / `read_config` / `write_config`.  `dom_start` and `improper`
are the named parameters of `get_loc`/`get_conf`; `perm` holds the remaining
keyword entries (candidate `fs_perm` arguments). -/
structure Kwargs where
  dom_start : Bool := true
  improper : Bool := false
  custom : Option PyPath := none
  cname : Option String := none
  trace_pwd : Option TracePwd := none
  ext : Option (List String) := none
  perm : Config := []

/-- The dictionary returned by `locations()`. -/
structure LocMap where
  improper : List PyPath
  user_loc : List PyPath
  root_loc : List PyPath
  shipped : List PyPath

/-- `FsDisc` of `base.py`: project name, stored `fs_perm` keyword arguments,
shipped locations (`base.py`'s `__init__` stores a list of paths) and the
platform xdg variables for the chosen base (the `xdg.yml` data is runtime
input, so it is a field of the state). -/
structure FsDisc where
  project : String
  permargs : Config
  shipped : List PyPath
  xdg : XdgVar

/-- `ConfDisc` of `config.py`.  `config.py` consistently uses `self.shipped`
as an optional directory path (`self.shipped / cname`, `if self.shipped is
not None`, `str(self.shipped)`), so it is embedded as `Option PyPath`;
`base.py`'s `__init__`, which wraps it in a list, is superseded by this
file's usage. -/
structure ConfDisc where
  project : String
  permargs : Config
  shipped : Option PyPath
  xdg : XdgVar

/-- View a `ConfDisc` as the `FsDisc` its inherited methods run on (none of
the inherited methods reads `shipped`). -/
def ConfDisc.toFsDisc (c : ConfDisc) : FsDisc :=
  { project := c.project, permargs := c.permargs,
    shipped := c.shipped.toList, xdg := c.xdg }

/-- `FsDisc.trace_ancestors`: walk parents from `child_dir`, collecting each
visited directory that contains `__init__.py`; append the directory and stop
when it contains `setup.cfg` or `setup.py`; stop (before visiting) at a
mountpoint.  The `[]` case of the inner match is unreachable because the
root is a mountpoint (`Fs.mount_root`). -/
def FsDisc.trace_ancestors (fs : Fs) (child_dir : PyPath) : List PyPath :=
  if fs.mount child_dir then []
  else
    (if fs.isFile ("__init__.py" :: child_dir) then [child_dir] else []) ++
    (if fs.isFile ("setup.cfg" :: child_dir) || fs.isFile ("setup.py" :: child_dir) then
      [child_dir]
    else
      match child_dir with
      | [] => []
      | _ :: parent => FsDisc.trace_ancestors fs parent)
termination_by child_dir.length

/-- `FsDisc.user_xdg_loc`, POSIX branch: `$XDG_<BASE>_HOME` (or the defaults
under `$HOME`), extended by the `dirs` variable's `:`-separated entries,
each suffixed with the project name. -/
def FsDisc.user_xdg_loc (d : FsDisc) (env : Env) : List PyPath :=
  let xdg_base_loc : List PyPath :=
    match env.vars d.xdg.var with
    | none => d.xdg.default.map (fun loc => pathJoin env.home loc)
    | some s => (pySplit s ':').map pathOfString
  let xdg_base_loc := xdg_base_loc ++
    (match d.xdg.dirs with
     | none => []
     | some dirs =>
       if dirs = "" then []
       else
         match env.vars dirs with
         | none => []
         | some v => (pySplit v ':').map pathOfString)
  xdg_base_loc.map (fun loc => pathJoin loc d.project)

/-- `FsDisc.root_xdg_loc`, POSIX branch. -/
def FsDisc.root_xdg_loc (d : FsDisc) : List PyPath :=
  d.xdg.root.map (fun root_base => pathJoin (pathOfString root_base) d.project)

/-- `FsDisc.improper_loc`, POSIX branch: `~/project` and `~/.project`. -/
def FsDisc.improper_loc (d : FsDisc) (env : Env) : List PyPath :=
  [pathJoin env.home ("" ++ d.project), pathJoin env.home ("." ++ d.project)]

/-- `FsDisc.locations`. -/
def FsDisc.locations (d : FsDisc) (env : Env) : LocMap :=
  { improper := d.improper_loc env,
    user_loc := d.user_xdg_loc env,
    root_loc := d.root_xdg_loc,
    shipped := d.shipped }

/-- `FsDisc.get_loc`: custom location, traced ancestors, improper locations
(on request), user, root and shipped locations, filtered by `fs_perm` under
the merged permission arguments, reversed unless `dom_start`. -/
def FsDisc.get_loc (d : FsDisc) (fs : Fs) (env : Env) (kw : Kwargs) : List PyPath :=
  let dom0 : List PyPath := match kw.custom with | some cu => [cu] | none => []
  let tp : Option PyPath :=
    match kw.trace_pwd with
    | none => none
    | some TracePwd.pwdTrue => some env.cwd
    | some (TracePwd.pwdPath p) => some p
  let dom1 : List PyPath :=
    match tp with
    | none => []
    | some p => FsDisc.trace_ancestors fs p
  let locs := d.locations env
  let dom2 : List PyPath := if kw.improper then locs.improper else []
  let dom := dom0 ++ dom1 ++ dom2 ++ locs.user_loc ++ locs.root_loc ++ locs.shipped
  let filtered := dom.filter (fun x => fs.perm x (mergedPermargs d.permargs kw.perm))
  if kw.dom_start then filtered else filtered.reverse

/-- Modelled from the spec: the recognised configuration-file extensions for
the supported formats (YAML, JSON, TOML, INI); the `CONF_EXT` constant of
`config_io.py` is imported by `config.py` but absent from the sources
provided. -/
def CONF_EXT : List String :=
  [".yml", ".yaml", ".json", ".toml", ".conf"]

/-- `ConfDisc.user_xdg_loc`: for every extension and every base location,
`<loc>/<cname>` and `<loc>` itself with that suffix. -/
def ConfDisc.user_xdg_loc (c : ConfDisc) (env : Env) (cname : String) : List PyPath :=
  let user_base_loc := FsDisc.user_xdg_loc c.toFsDisc env
  CONF_EXT.flatMap (fun ext =>
    user_base_loc.flatMap (fun loc =>
      [withSuffix (pathJoin loc cname) ext, withSuffix loc ext]))

/-- `ConfDisc.root_xdg_loc`. -/
def ConfDisc.root_xdg_loc (c : ConfDisc) (cname : String) : List PyPath :=
  let root_base_loc := FsDisc.root_xdg_loc c.toFsDisc
  CONF_EXT.flatMap (fun ext =>
    root_base_loc.flatMap (fun loc =>
      [withSuffix (pathJoin loc cname) ext, withSuffix loc ext]))

/-- `ConfDisc.improper_loc`. -/
def ConfDisc.improper_loc (c : ConfDisc) (env : Env) (cname : String) : List PyPath :=
  let improper_base_loc := FsDisc.improper_loc c.toFsDisc env
  CONF_EXT.flatMap (fun ext =>
    improper_base_loc.flatMap (fun loc =>
      [withSuffix (pathJoin loc cname) ext, withSuffix loc ext]))

/-- `ConfDisc.locations`: `cname or 'config'`, then the four groups;
shipped candidates are `<shipped>/<cname>` with every known extension. -/
def ConfDisc.locations (c : ConfDisc) (env : Env) (cname0 : Option String) : LocMap :=
  let cname := match cname0 with
    | none => "config"
    | some s => if s = "" then "config" else s
  { improper := c.improper_loc env cname,
    user_loc := c.user_xdg_loc env cname,
    root_loc := c.root_xdg_loc cname,
    shipped :=
      match c.shipped with
      | none => []
      | some sp => CONF_EXT.map (fun ext => withSuffix (pathJoin sp cname) ext) }

/-- `ConfDisc.trace_ancestors`: the inherited pedigree, with `child_dir`
prepended when absent; each pedigree directory contributes its
`.{project}rc` file; the last pedigree directory contributes
`pyproject.toml` and `setup.cfg` when they exist.  The pedigree is never
empty, so `getLast?`'s `none` case is unreachable. -/
def ConfDisc.trace_ancestors (c : ConfDisc) (fs : Fs) (child_dir : PyPath) : List PyPath :=
  let pedigree0 := FsDisc.trace_ancestors fs child_dir
  let pedigree := if child_dir ∈ pedigree0 then pedigree0 else child_dir :: pedigree0
  let config := pedigree.map (fun config_dir => ("." ++ c.project ++ "rc") :: config_dir)
  config ++
    (match pedigree.getLast? with
     | none => []
     | some root =>
       (if fs.isFile ("pyproject.toml" :: root) then ["pyproject.toml" :: root] else []) ++
       (if fs.isFile ("setup.cfg" :: root) then ["setup.cfg" :: root] else []))

/-- `ConfDisc.get_conf`: custom location, the `${PROJECT}RC` file (raising
`FileNotFoundError` when the variable names a path that is not a file),
traced ancestor configs, improper locations (on request), user, root and
shipped configs, filtered by `fs_perm` under the merged permission
arguments, reversed unless `dom_start`. -/
def ConfDisc.get_conf (c : ConfDisc) (fs : Fs) (env : Env) (kw : Kwargs) :
    Except PyErr (List PyPath) :=
  let dom0 : List PyPath := match kw.custom with | some cu => [cu] | none => []
  let rcSeg : Except PyErr (List PyPath) :=
    match env.vars (pyUpper c.project ++ "RC") with
    | none => Except.ok []
    | some rc_val =>
      if fs.isFile (pathOfString rc_val) then Except.ok [pathOfString rc_val]
      else Except.error PyErr.fileNotFound
  match rcSeg with
  | Except.error e => Except.error e
  | Except.ok rcs =>
    let tp : Option PyPath :=
      match kw.trace_pwd with
      | none => none
      | some TracePwd.pwdTrue => some env.cwd
      | some (TracePwd.pwdPath p) => some p
    let dom1 : List PyPath :=
      match tp with
      | none => []
      | some p => c.trace_ancestors fs p
    let locs := c.locations env kw.cname
    let dom2 : List PyPath := if kw.improper then locs.improper else []
    let dom := dom0 ++ rcs ++ dom1 ++ dom2 ++ locs.user_loc ++ locs.root_loc ++ locs.shipped
    let filtered := dom.filter (fun x => fs.perm x (mergedPermargs c.permargs kw.perm))
    Except.ok (if kw.dom_start then filtered else filtered.reverse)

/-- `ConfDisc.safe_config`: default the `mode` keyword to `2`, drop private
locations (substring test against the private markers and the shipped
directory), and optionally keep only the requested extensions. -/
def ConfDisc.safe_config (c : ConfDisc) (fs : Fs) (env : Env) (kw : Kwargs) :
    Except PyErr (List PyPath) :=
  let kw1 : Kwargs := { kw with perm := setDefaultMode kw.perm ("2") }
  let private_locs : List String :=
    ["site-packages", "venv", "/etc", "setup", "pyproject"] ++
      (match c.shipped with | some sp => [pathStr sp] | none => [])
  match c.get_conf fs env kw1 with
  | Except.error e => Except.error e
  | Except.ok confs =>
    let safe := confs.filter (fun x => !(private_locs.any (fun priv => pyIn priv (pathStr x))))
    match kw1.ext with
    | none => Except.ok safe
    | some exts => Except.ok (safe.filter (fun x => exts.contains (pySuffix x)))

/-- `parse_yaml`: open and `yaml.safe_load`; a `None` result raises
`BadConf`, a `yaml.YAMLError` is its oracle failure — both are modelled as
`PyErr.badConf`, because every call site treats them identically. -/
def parse_yaml (fs : Fs) (config : PyPath) : Except PyErr Config :=
  match fs.read config with
  | Except.error e => Except.error e
  | Except.ok ct =>
    match ct.yaml with
    | some conf => Except.ok conf
    | none => Except.error PyErr.badConf

/-- `parse_json`: open and `pyjson5.load`; the oracle already folds the
`Json5EOF` special case (an empty file parses to `{}`). -/
def parse_json (fs : Fs) (config : PyPath) : Except PyErr Config :=
  match fs.read config with
  | Except.error e => Except.error e
  | Except.ok ct =>
    match ct.json with
    | some conf => Except.ok conf
    | none => Except.error PyErr.json5Error

/-- `parse_toml`: open and `toml.load`, then `conf.get(section, {})` when a
section is requested (the sectioned result is the `tomlSec` oracle). -/
def parse_toml (fs : Fs) (config : PyPath) (sect : Option String) :
    Except PyErr Config :=
  match fs.read config with
  | Except.error e => Except.error e
  | Except.ok ct =>
    match sect with
    | none =>
      match ct.toml with
      | some conf => Except.ok conf
      | none => Except.error PyErr.tomlDecodeError
    | some s =>
      match ct.tomlSec s with
      | some conf => Except.ok conf
      | none => Except.error PyErr.tomlDecodeError

/-- `parse_ini`: `configparser.ConfigParser.read` silently skips files it
cannot open, leaving the parser empty — modelled as the empty mapping (the
real parser would still expose an empty `DEFAULT` section, irrelevant
here).  On readable content, the (sectioned) oracle result, `none` being a
`configparser.Error`. -/
def parse_ini (fs : Fs) (config : PyPath) (sect : Option String) :
    Except PyErr Config :=
  match fs.read config with
  | Except.error _ => Except.ok []
  | Except.ok ct =>
    match sect with
    | none =>
      match ct.ini with
      | some conf => Except.ok conf
      | none => Except.error PyErr.configparserError
    | some s =>
      match ct.iniSec s with
      | some conf => Except.ok conf
      | none => Except.error PyErr.configparserError

/-- The fallback chain of `parse_rc` with no usable `form`: yaml, then json,
then toml, then ini, each `try` catching exactly that parser's failure;
when the last one fails too, `BadConf` is raised.  Any other exception
(filesystem errors in particular) propagates. -/
def parse_rc_chain (fs : Fs) (config : PyPath) : Except PyErr (Config × Option String) :=
  match parse_yaml fs config with
  | Except.ok c => Except.ok (c, some "yaml")
  | Except.error PyErr.badConf =>
    (match parse_json fs config with
     | Except.ok c => Except.ok (c, some "json")
     | Except.error PyErr.json5Error =>
       (match parse_toml fs config none with
        | Except.ok c => Except.ok (c, some "toml")
        | Except.error PyErr.tomlDecodeError =>
          (match parse_ini fs config none with
           | Except.ok c => Except.ok (c, some "ini")
           | Except.error PyErr.configparserError => Except.error PyErr.badConf
           | Except.error e => Except.error e)
        | Except.error e => Except.error e)
     | Except.error e => Except.error e)
  | Except.error e => Except.error e

/-- The `except (...) as err: raise BadConf from err` wrapper of the
explicit-`form` branch of `parse_rc`: the four parser failures become
`BadConf`, everything else propagates. -/
def formWrap (r : Except PyErr Config) (f : String) : Except PyErr (Config × Option String) :=
  match r with
  | Except.ok c => Except.ok (c, some f)
  | Except.error PyErr.badConf => Except.error PyErr.badConf
  | Except.error PyErr.json5Error => Except.error PyErr.badConf
  | Except.error PyErr.tomlDecodeError => Except.error PyErr.badConf
  | Except.error PyErr.configparserError => Except.error PyErr.badConf
  | Except.error e => Except.error e

/-- `parse_rc`: `setup.cfg` and `pyproject.toml` are parsed directly (as ini
resp. toml with the project section, with `None` as the reported format);
otherwise a usable `form` entry selects a single parser, and in every other
case the yaml→json→toml→ini fallback chain runs.  A `form` list containing
none of the four names falls through to the chain, like the source's
`if`/`elif` with no `else`. -/
def parse_rc (fs : Fs) (config : PyPath) (project : Option String)
    (form : Option (List String)) : Except PyErr (Config × Option String) :=
  if pathName config = "setup.cfg" then
    (parse_ini fs config project).map (fun c => (c, none))
  else if pathName config = "pyproject.toml" then
    (parse_toml fs config project).map (fun c => (c, none))
  else
    match form with
    | some fl =>
      if fl.contains ("yaml") then formWrap (parse_yaml fs config) ("yaml")
      else if fl.contains ("json") then formWrap (parse_json fs config) ("json")
      else if fl.contains ("toml") then formWrap (parse_toml fs config none) ("toml")
      else if fl.contains ("ini") then formWrap (parse_ini fs config none) ("ini")
      else parse_rc_chain fs config
    | none => parse_rc_chain fs config

/-- The serializer selected by `write_rc`. -/
inductive WForm where
  | yaml
  | json
  | toml
  | ini
  deriving DecidableEq

/-- The `ext_dict` of `write_rc` (each entry stands for its
parse/dump handle pair). -/
def ext_dict : List (String × WForm) :=
  [(".conf", WForm.ini), (".cfg", WForm.ini), (".ini", WForm.ini),
   (".toml", WForm.toml), (".json", WForm.json)]

/-- `ext_dict.get(config.suffix) or ext_dict.get(f'.{form}')`, with the yaml
fallback; a missing `form` interpolates as the literal `.None`. -/
def selectHandles (config : PyPath) (form : Option String) : WForm :=
  match ext_dict.lookup (pySuffix config) with
  | some h => h
  | none =>
    match ext_dict.lookup ("." ++ (match form with | some f => f | none => "None")) with
    | some h => h
    | none => WForm.yaml

/-- `handles[0]`: the parse function of the selected format (called with
only the path, so with no section). -/
def parseWith (h : WForm) (fs : Fs) (config : PyPath) : Except PyErr Config :=
  match h with
  | WForm.yaml => parse_yaml fs config
  | WForm.json => parse_json fs config
  | WForm.toml => parse_toml fs config none
  | WForm.ini => parse_ini fs config none

/-- The written file as later observed through the parser oracles: the dump
functions are opaque collaborators, so the file round-trips to the dumped
data under its own format. -/
def contentOf (h : WForm) (d : Config) : Content :=
  match h with
  | WForm.yaml => { yaml := some d }
  | WForm.json => { json := some d }
  | WForm.toml => { toml := some d }
  | WForm.ini => { ini := some d }

/-- The tail of `write_rc`: `mkdir` (directories are not represented), open
for writing (which may raise) and dump; on success the path becomes a file
holding the dumped data. -/
def writeOut (fs : Fs) (d : Config) (config : PyPath) (h : WForm) :
    Except PyErr (Bool × Fs) :=
  match fs.writeErr config with
  | some e => Except.error e
  | none =>
    Except.ok (true,
      { fs with
        isFile := fun q => if q = config then true else fs.isFile q,
        read := fun q => if q = config then Except.ok (contentOf h d) else fs.read q })

/-- `write_rc`: select the serializer, then — when the target is already a
file — return `False` on `force='fail'` or merge the old data on
`force='update'`; finally write `{**old_data, **data}`. -/
def write_rc (fs : Fs) (data : Config) (config : PyPath) (form : Option String)
    (force : String) : Except PyErr (Bool × Fs) :=
  let handles := selectHandles config form
  if fs.isFile config then
    if force = "fail" then Except.ok (false, fs)
    else if force = "update" then
      match parseWith handles fs config with
      | Except.error e => Except.error e
      | Except.ok old_data => writeOut fs (pyMergeDict old_data data) config handles
    else writeOut fs (pyMergeDict [] data) config handles
  else writeOut fs (pyMergeDict [] data) config handles

/-- The value stored in the dictionary `read_config` returns. -/
inductive ReadOut where
  | confs (m : List (PyPath × Config × Option String))
  | flat (m : List (PyPath × Config))
  deriving DecidableEq

/-- The config-loading loop of `read_config`: each candidate's `parse_rc`
result is stored under its path; `PermissionError`, `FileNotFoundError` and
`IsADirectoryError` skip the candidate; every other exception propagates. -/
def collectConfs (fs : Fs) (project : String) :
    List PyPath → List (PyPath × Config × Option String) →
    Except PyErr (List (PyPath × Config × Option String))
  | [], acc => Except.ok acc
  | config :: rest, acc =>
    match parse_rc fs config (some project) none with
    | Except.ok v => collectConfs fs project rest (pyDictInsert acc config v)
    | Except.error PyErr.permission => collectConfs fs project rest acc
    | Except.error PyErr.fileNotFound => collectConfs fs project rest acc
    | Except.error PyErr.isADirectory => collectConfs fs project rest acc
    | Except.error e => Except.error e

/-- One `super_config.update(config)` step of the `flatten` loop, where
`config` is the `(dict, form)` pair stored by the loading loop.  CPython's
`dict.update` treats the pair as a sequence of key-value items: the first
item, the parsed dict, is accepted only when it has exactly two keys (its
two keys then act as one key/value pair); the second item, the format name,
is `None` (not iterable: `TypeError`) or one of `'yaml'`, `'json'`,
`'toml'`, `'ini'`, whose length is not 2 (`ValueError`). -/
def dictUpdateWithPair (acc : Config) (d : Config) (f : Option String) :
    Except PyErr Config :=
  match d with
  | [kv1, kv2] =>
    let acc1 := pyDictInsert acc kv1.1 kv2.1
    match f with
    | none => Except.error PyErr.typeError
    | some s =>
      match s.data with
      | [c0, c1] => Except.ok (pyDictInsert acc1 (String.mk [c0]) (String.mk [c1]))
      | _ => Except.error PyErr.valueError
  | _ => Except.error PyErr.valueError

/-- The `flatten` loop of `read_config` over the reversed stored values. -/
def flattenLoop (acc : Config) : List (Config × Option String) → Except PyErr Config
  | [] => Except.ok acc
  | v :: rest =>
    match dictUpdateWithPair acc v.1 v.2 with
    | Except.ok acc2 => flattenLoop acc2 rest
    | Except.error e => Except.error e

/-- `ConfDisc.read_config`: default the `mode` keyword to `4`, discover the
candidates, load whatever parses (skipping unavailable locations), and
either return the per-file mapping or superimpose it under the current
directory when `flatten` is requested. -/
def ConfDisc.read_config (c : ConfDisc) (fs : Fs) (env : Env) (flatten : Bool)
    (kw : Kwargs) : Except PyErr ReadOut :=
  let kw1 : Kwargs := { kw with perm := setDefaultMode kw.perm ("4") }
  match c.get_conf fs env kw1 with
  | Except.error e => Except.error e
  | Except.ok confs =>
    match collectConfs fs c.project confs [] with
    | Except.error e => Except.error e
    | Except.ok avail =>
      if !flatten then Except.ok (ReadOut.confs avail)
      else
        match flattenLoop [] (avail.map (fun kv => kv.2)).reverse with
        | Except.error e => Except.error e
        | Except.ok super_config => Except.ok (ReadOut.flat [(env.cwd, super_config)])

/-- The write loop of `write_config`: try each path with `write_rc`,
returning its result as soon as it does not raise; `PermissionError`,
`IsADirectoryError` and `FileNotFoundError` move on to the next path;
`False` when the list is exhausted. -/
def writeLoop (fs : Fs) (data : Config) (force : String) :
    List PyPath → Except PyErr (Bool × Fs)
  | [] => Except.ok (false, fs)
  | config :: rest =>
    match write_rc fs data config none force with
    | Except.ok r => Except.ok r
    | Except.error PyErr.permission => writeLoop fs data force rest
    | Except.error PyErr.isADirectory => writeLoop fs data force rest
    | Except.error PyErr.fileNotFound => writeLoop fs data force rest
    | Except.error e => Except.error e

/-- `ConfDisc.write_config`: run the write loop over the reversed safe
paths.  `safe_config(ext=kwargs.get('ext'), **kwargs)` raises `TypeError`
at the call itself whenever the caller supplied an `ext` keyword (the
keyword is passed twice), so that case errors out before any discovery. -/
def ConfDisc.write_config (c : ConfDisc) (fs : Fs) (env : Env) (data : Config)
    (force : String) (kw : Kwargs) : Except PyErr (Bool × Fs) :=
  if kw.ext.isSome then Except.error PyErr.typeError
  else
    match c.safe_config fs env kw with
    | Except.error e => Except.error e
    | Except.ok config_l => writeLoop fs data force config_l.reverse

/-! ## Claim-side definitions (worded after the spec, for the refinement
claims) and concrete states used by witnesses and counterexamples. -/

/-- Claim side: the explicit custom override. -/
def customSegment (kw : Kwargs) : List PyPath :=
  match kw.custom with | some p => [p] | none => []

/-- Claim side: the file named by the `${PROJECT}RC` environment variable
(failing when it names a path that is not a file). -/
def projectRcSegment (c : ConfDisc) (fs : Fs) (env : Env) : Except PyErr (List PyPath) :=
  match env.vars (pyUpper c.project ++ "RC") with
  | none => Except.ok []
  | some rc_val =>
    if fs.isFile (pathOfString rc_val) then Except.ok [pathOfString rc_val]
    else Except.error PyErr.fileNotFound

/-- Claim side: the project-ancestor configuration files. -/
def ancestorSegment (c : ConfDisc) (fs : Fs) (env : Env) (kw : Kwargs) : List PyPath :=
  match kw.trace_pwd with
  | none => []
  | some TracePwd.pwdTrue => c.trace_ancestors fs env.cwd
  | some (TracePwd.pwdPath p) => c.trace_ancestors fs p

/-- Claim side: the improper home locations, present only on request. -/
def improperSegment (c : ConfDisc) (env : Env) (kw : Kwargs) : List PyPath :=
  if kw.improper then (c.locations env kw.cname).improper else []

/-- Claim side: the user XDG locations. -/
def userSegment (c : ConfDisc) (env : Env) (kw : Kwargs) : List PyPath :=
  (c.locations env kw.cname).user_loc

/-- Claim side: the system-wide root locations. -/
def rootSegment (c : ConfDisc) (env : Env) (kw : Kwargs) : List PyPath :=
  (c.locations env kw.cname).root_loc

/-- Claim side: the shipped defaults. -/
def shippedSegment (c : ConfDisc) (env : Env) (kw : Kwargs) : List PyPath :=
  (c.locations env kw.cname).shipped

/-- Claim side: the dominance-ordered candidate list stated by the spec —
custom override, then the `${PROJECT}RC` file, then ancestors, then (on
request) improper locations, then user, root and shipped locations, all
filtered by accessibility. -/
def claimedDomOrder (c : ConfDisc) (fs : Fs) (env : Env) (kw : Kwargs) :
    Except PyErr (List PyPath) :=
  match projectRcSegment c fs env with
  | Except.error e => Except.error e
  | Except.ok rcs =>
    Except.ok ((customSegment kw ++ rcs ++ ancestorSegment c fs env kw ++
      improperSegment c env kw ++ userSegment c env kw ++ rootSegment c env kw ++
      shippedSegment c env kw).filter
        (fun x => fs.perm x (mergedPermargs c.permargs kw.perm)))

/-- Does this directory contain `__init__.py`? -/
def hasInit (fs : Fs) (d : PyPath) : Bool :=
  fs.isFile ("__init__.py" :: d)

/-- Does this directory contain `setup.cfg` or `setup.py` (project root)? -/
def hasSetup (fs : Fs) (d : PyPath) : Bool :=
  fs.isFile ("setup.cfg" :: d) || fs.isFile ("setup.py" :: d)

/-- Claim side: the directories the ancestor walk visits, nearest first —
every parent strictly before the first mountpoint, stopping at (and
including) the first directory that holds a setup file. -/
def ancestorsWalk (fs : Fs) (child_dir : PyPath) : List PyPath :=
  if fs.mount child_dir then []
  else
    child_dir ::
      (if hasSetup fs child_dir then []
       else
         match child_dir with
         | [] => []
         | _ :: parent => ancestorsWalk fs parent)
termination_by child_dir.length

/-- Did the computation succeed? -/
def exceptIsOk {ε α : Type} : Except ε α → Bool
  | Except.ok _ => true
  | Except.error _ => false

/-- Is this a filesystem-availability error (the exceptions the spec calls
"location unavailable")? -/
def isFsReadErr {α : Type} : Except PyErr α → Bool
  | Except.error PyErr.permission => true
  | Except.error PyErr.fileNotFound => true
  | Except.error PyErr.isADirectory => true
  | _ => false

/-- Claim side: the mapping `read_config` builds — every candidate whose
parse succeeds, keyed by path, in candidate order. -/
def availOf (fs : Fs) (project : String) (l : List PyPath)
    (acc : List (PyPath × Config × Option String)) :
    List (PyPath × Config × Option String) :=
  l.foldl (fun acc2 config =>
    match parse_rc fs config (some project) none with
    | Except.ok v => pyDictInsert acc2 config v
    | Except.error _ => acc2) acc

/-- Is this one of the write-loop's skipped (filesystem) errors? -/
def isFsSkipErr : Except PyErr (Bool × Fs) → Bool
  | Except.error PyErr.permission => true
  | Except.error PyErr.isADirectory => true
  | Except.error PyErr.fileNotFound => true
  | _ => false

/-- The xdg variables of the `config` base used by the concrete states. -/
def xdg0 : XdgVar :=
  { var := "XDG_CONFIG_HOME" }

/-- A `ConfDisc` for project `test` with no shipped directory. -/
def c3 : ConfDisc :=
  { project := "test", permargs := [], shipped := none, xdg := xdg0 }

/-- An environment whose `TESTRC` names a missing file. -/
def env3 : Env :=
  { home := ["home"], cwd := ["w"],
    vars := fun k => if k = "TESTRC" then some ("/missing/rc") else none }

/-- A filesystem with no files at all. -/
def fs3 : Fs :=
  { isFile := fun _ => false,
    mount := fun p => p.isEmpty,
    perm := fun _ _ => true,
    read := fun _ => Except.error PyErr.fileNotFound,
    writeErr := fun _ => none,
    mount_root := rfl }

/-- An environment locating the user xdg base at `/u`. -/
def env3w : Env :=
  { home := ["home"], cwd := ["w"],
    vars := fun k => if k = "XDG_CONFIG_HOME" then some ("/u") else none }

/-- `/u/test/config.yml`. -/
def pA3 : PyPath := ["config.yml", "test", "u"]

/-- `/u/test/config.json`. -/
def pB3 : PyPath := ["config.json", "test", "u"]

/-- A filesystem where `/u/test/config.yml` is unreadable (permission) and
`/u/test/config.json` holds a json mapping; only those two pass `fs_perm`. -/
def fs3w : Fs :=
  { isFile := fun _ => false,
    mount := fun p => p.isEmpty,
    perm := fun p _ => p == pA3 || p == pB3,
    read := fun q =>
      if q = pA3 then Except.error PyErr.permission
      else if q = pB3 then Except.ok { json := some [("k", "v")] }
      else Except.error PyErr.fileNotFound,
    writeErr := fun _ => none,
    mount_root := rfl }

/-- A filesystem where only `/u/test/config.yml` passes `fs_perm` and holds
a yaml mapping with a single key. -/
def fs4 : Fs :=
  { isFile := fun _ => false,
    mount := fun p => p.isEmpty,
    perm := fun p _ => p == pA3,
    read := fun q =>
      if q = pA3 then Except.ok { yaml := some [("a", "1")] }
      else Except.error PyErr.fileNotFound,
    writeErr := fun _ => none,
    mount_root := rfl }

/-- `<dir>/setup.cfg` for the `parse_rc` counterexample. -/
def pSetup : PyPath := ["setup.cfg", "proj"]

/-- Content of that `setup.cfg`: yaml parsing succeeds with one mapping,
the ini `test` section holds a different one. -/
def fsC2 : Fs :=
  { isFile := fun _ => false,
    mount := fun p => p.isEmpty,
    perm := fun _ _ => true,
    read := fun q =>
      if q = pSetup then
        Except.ok
          { yaml := some [("a", "1")],
            iniSec := fun s => if s = "test" then some [("b", "2")] else none }
      else Except.error PyErr.fileNotFound,
    writeErr := fun _ => none,
    mount_root := rfl }

/-- `/d/config.json` for the fallback-chain witness. -/
def pW2 : PyPath := ["config.json", "d"]

/-- Its content: not yaml, valid json. -/
def ctW2 : Content := { json := some [("k", "v")] }

/-- A filesystem holding only that file. -/
def fsW2 : Fs :=
  { isFile := fun _ => false,
    mount := fun p => p.isEmpty,
    perm := fun _ _ => true,
    read := fun q => if q = pW2 then Except.ok ctW2 else Except.error PyErr.fileNotFound,
    writeErr := fun _ => none,
    mount_root := rfl }

/-- An `FsDisc` for project `test` with stored permission arguments. -/
def d6 : FsDisc :=
  { project := "test", permargs := [("mode", "1")], shipped := [], xdg := xdg0 }

/-- Keyword arguments carrying a custom location. -/
def kw6 : Kwargs := { custom := some pA3 }

/-- `/w/custom.yml`: the custom (most dominant) write target. -/
def pC8 : PyPath := ["custom.yml", "w"]

/-- A filesystem where the least dominant safe path `/u/test/config.yml`
already exists and the custom target does not; both are writable and pass
`fs_perm`. -/
def fs8 : Fs :=
  { isFile := fun p => p == pA3,
    mount := fun p => p.isEmpty,
    perm := fun p _ => p == pC8 || p == pA3,
    read := fun _ => Except.error PyErr.fileNotFound,
    writeErr := fun _ => none,
    mount_root := rfl }

/-- Keyword arguments carrying the custom write target. -/
def kw8 : Kwargs := { custom := some pC8 }

/-! ## Helper lemmas -/

/-- Unfolding of `get_conf` against the named segments. -/
theorem get_conf_unfold (c : ConfDisc) (fs : Fs) (env : Env) (kw : Kwargs) :
    c.get_conf fs env kw =
      (match projectRcSegment c fs env with
       | Except.error e => Except.error e
       | Except.ok rcs =>
         Except.ok
           (let filtered := (customSegment kw ++ rcs ++ ancestorSegment c fs env kw ++
               improperSegment c env kw ++ userSegment c env kw ++ rootSegment c env kw ++
               shippedSegment c env kw).filter
               (fun x => fs.perm x (mergedPermargs c.permargs kw.perm));
            if kw.dom_start then filtered else filtered.reverse)) := by
  obtain ⟨ds, imp, cu, cn, tp, ex, pm⟩ := kw
  cases henv : env.vars (pyUpper c.project ++ "RC") with
  | none =>
    rcases tp with _ | t
    · simp [ConfDisc.get_conf, projectRcSegment, customSegment, ancestorSegment,
        improperSegment, userSegment, rootSegment, shippedSegment, henv]
    · cases t <;>
        simp [ConfDisc.get_conf, projectRcSegment, customSegment, ancestorSegment,
          improperSegment, userSegment, rootSegment, shippedSegment, henv]
  | some rc_val =>
    by_cases hf : fs.isFile (pathOfString rc_val)
    · rcases tp with _ | t
      · simp [ConfDisc.get_conf, projectRcSegment, customSegment, ancestorSegment,
          improperSegment, userSegment, rootSegment, shippedSegment, henv, hf]
      · cases t <;>
          simp [ConfDisc.get_conf, projectRcSegment, customSegment, ancestorSegment,
            improperSegment, userSegment, rootSegment, shippedSegment, henv, hf]
    · simp [ConfDisc.get_conf, projectRcSegment, customSegment, ancestorSegment,
        improperSegment, userSegment, rootSegment, shippedSegment, henv, hf]

/-- Claim C1: `get_conf` returns the dominance-ordered candidate list:
custom override first, then the `PROJECTRC` file, then ancestor configs,
then (when requested) improper home locations, then user XDG, then root,
then shipped defaults last, filtered by accessibility; the embedding is a
pure function of the discoverer, filesystem, environment and arguments, so
the same inputs always produce the same list. -/
theorem get_conf_dominance_order (c : ConfDisc) (fs : Fs) (env : Env) (kw : Kwargs) :
    c.get_conf fs env { kw with dom_start := true } =
      claimedDomOrder c fs env { kw with dom_start := true } := by
  rw [get_conf_unfold]
  unfold claimedDomOrder
  cases hseg : projectRcSegment c fs env with
  | error e => simp
  | ok rcs => simp

/-- Claim C6: every path returned by `FsDisc.get_loc`, and every path in a
list returned by `ConfDisc.get_conf`, satisfies `fs_perm` under the
permission arguments merged from the instance's `permargs` and the call's
keyword arguments. -/
theorem discovered_paths_satisfy_fs_perm (d : FsDisc) (c : ConfDisc) (fs : Fs) (env : Env)
    (kw : Kwargs) (p : PyPath) (l : List PyPath) :
    (p ∈ d.get_loc fs env kw → fs.perm p (mergedPermargs d.permargs kw.perm) = true) ∧
      (c.get_conf fs env kw = Except.ok l → p ∈ l →
        fs.perm p (mergedPermargs c.permargs kw.perm) = true) := by
  constructor
  · intro hp
    simp only [FsDisc.get_loc] at hp
    rcases hds : kw.dom_start with _ | _ <;> rw [hds] at hp
    · simp only [if_neg Bool.false_ne_true, List.mem_reverse] at hp
      exact (List.mem_filter.mp hp).2
    · simp only [if_pos rfl] at hp
      exact (List.mem_filter.mp hp).2
  · intro hg hp
    rw [get_conf_unfold] at hg
    cases hseg : projectRcSegment c fs env with
    | error e => rw [hseg] at hg; simp at hg
    | ok rcs =>
      rw [hseg] at hg
      simp only [Except.ok.injEq] at hg
      subst hg
      rcases hds : kw.dom_start with _ | _ <;> rw [hds] at hp
      · simp only [if_neg Bool.false_ne_true, List.mem_reverse] at hp
        exact (List.mem_filter.mp hp).2
      · simp only [if_pos rfl] at hp
        exact (List.mem_filter.mp hp).2

/-- Witness for C6 at a concrete state: the custom path returned by
`get_loc`, and a user xdg path returned by `get_conf`, both pass `fs_perm`
under the merged permission arguments. -/
theorem discovered_paths_satisfy_fs_perm_witness :
    fs3w.perm pA3 (mergedPermargs d6.permargs kw6.perm) = true ∧
      fs3w.perm pB3 (mergedPermargs c3.permargs kw6.perm) = true :=
  ⟨(discovered_paths_satisfy_fs_perm d6 c3 fs3w env3w kw6 pA3 [pA3, pA3, pB3]).1
      (by decide),
   (discovered_paths_satisfy_fs_perm d6 c3 fs3w env3w kw6 pB3 [pA3, pA3, pB3]).2
      (by rfl) (by decide)⟩

/-- Claim C9: when the target already exists as a file and `force='fail'`,
`write_rc` returns `False` and performs no write — the filesystem state is
returned unchanged. -/
theorem write_rc_force_fail_noop (fs : Fs) (data : Config) (config : PyPath)
    (form : Option String) (h : fs.isFile config = true) :
    write_rc fs data config form ("fail") = Except.ok (false, fs) := by
  unfold write_rc
  simp [h]

/-- Witness for C9 at a concrete state. -/
theorem write_rc_force_fail_noop_witness :
    fs8.isFile pA3 = true ∧
      write_rc fs8 [("x", "y")] pA3 none ("fail") = Except.ok (false, fs8) :=
  ⟨by decide, write_rc_force_fail_noop fs8 [("x", "y")] pA3 none (by decide)⟩

/-- Prepending the same character to two strings is injective. -/
theorem dot_append_inj (a b : String) (h : ("." ++ a) = ("." ++ b)) : a = b := by
  have hd := congrArg String.data h
  simp only [String.data_append] at hd
  exact String.ext (List.append_cancel_left hd)

/-- `ext_dict.get(f'.{form}')` described by the bare format name. -/
theorem lookup_ext_dict_dot (f : String) :
    ext_dict.lookup ("." ++ f) =
      (if f = "conf" ∨ f = "cfg" ∨ f = "ini" then some WForm.ini
       else if f = "toml" then some WForm.toml
       else if f = "json" then some WForm.json
       else none) := by
  by_cases h1 : f = "conf"
  · subst h1; decide
  by_cases h2 : f = "cfg"
  · subst h2; decide
  by_cases h3 : f = "ini"
  · subst h3; decide
  by_cases h4 : f = "toml"
  · subst h4; decide
  by_cases h5 : f = "json"
  · subst h5; decide
  have e1 : (("." ++ f) == ".conf") = false :=
    beq_eq_false_iff_ne.mpr (fun hh => h1 (dot_append_inj f ("conf") hh))
  have e2 : (("." ++ f) == ".cfg") = false :=
    beq_eq_false_iff_ne.mpr (fun hh => h2 (dot_append_inj f ("cfg") hh))
  have e3 : (("." ++ f) == ".ini") = false :=
    beq_eq_false_iff_ne.mpr (fun hh => h3 (dot_append_inj f ("ini") hh))
  have e4 : (("." ++ f) == ".toml") = false :=
    beq_eq_false_iff_ne.mpr (fun hh => h4 (dot_append_inj f ("toml") hh))
  have e5 : (("." ++ f) == ".json") = false :=
    beq_eq_false_iff_ne.mpr (fun hh => h5 (dot_append_inj f ("json") hh))
  simp [ext_dict, List.lookup, e1, e2, e3, e4, e5, h1, h2, h3, h4, h5]

/-- Claim C5: `write_rc` selects the serializer by the target's extension
(`.conf`/`.cfg`/`.ini` as INI, `.toml` as TOML, `.json` as JSON); when the
extension matches no known format it uses the explicitly specified `form`
(`conf`/`cfg`/`ini`/`toml`/`json`), and when neither matches it falls back
to YAML. -/
theorem write_rc_format_selection (config : PyPath) (form : Option String) :
    selectHandles config form =
      (if pySuffix config = ".conf" ∨ pySuffix config = ".cfg" ∨ pySuffix config = ".ini"
        then WForm.ini
       else if pySuffix config = ".toml" then WForm.toml
       else if pySuffix config = ".json" then WForm.json
       else
         match form with
         | some f =>
           if f = "conf" ∨ f = "cfg" ∨ f = "ini" then WForm.ini
           else if f = "toml" then WForm.toml
           else if f = "json" then WForm.json
           else WForm.yaml
         | none => WForm.yaml) := by
  unfold selectHandles
  by_cases h1 : pySuffix config = ".conf"
  · rw [h1]; simp [ext_dict, List.lookup]
  by_cases h2 : pySuffix config = ".cfg"
  · rw [h2]; simp [ext_dict, List.lookup, h1]
  by_cases h3 : pySuffix config = ".ini"
  · rw [h3]; simp [ext_dict, List.lookup, h1, h2]
  by_cases h4 : pySuffix config = ".toml"
  · rw [h4]; simp [ext_dict, List.lookup, h1, h2, h3]
  by_cases h5 : pySuffix config = ".json"
  · rw [h5]; simp [ext_dict, List.lookup, h1, h2, h3, h4]
  have e1 : (pySuffix config == ".conf") = false := beq_eq_false_iff_ne.mpr h1
  have e2 : (pySuffix config == ".cfg") = false := beq_eq_false_iff_ne.mpr h2
  have e3 : (pySuffix config == ".ini") = false := beq_eq_false_iff_ne.mpr h3
  have e4 : (pySuffix config == ".toml") = false := beq_eq_false_iff_ne.mpr h4
  have e5 : (pySuffix config == ".json") = false := beq_eq_false_iff_ne.mpr h5
  have hlk : ext_dict.lookup (pySuffix config) = none := by
    simp [ext_dict, List.lookup, e1, e2, e3, e4, e5]
  rw [hlk]
  cases form with
  | none =>
    simp [h1, h2, h3, h4, h5]
    decide
  | some f =>
    rw [lookup_ext_dict_dot f]
    by_cases g1 : f = "conf" ∨ f = "cfg" ∨ f = "ini"
    · simp [h1, h2, h3, h4, h5, g1]
    by_cases g2 : f = "toml"
    · simp [h1, h2, h3, h4, h5, g1, g2]
    by_cases g3 : f = "json"
    · simp [h1, h2, h3, h4, h5, g1, g2, g3]
    simp [h1, h2, h3, h4, h5, g1, g2, g3]

/-- Claim C7: `FsDisc.trace_ancestors` walks parent by parent up to the
nearest mountpoint or project root: its result is exactly the visited
directories that contain `__init__.py`, with the directory that ends the
walk by holding a setup file appended, nearest first (the walk order). -/
theorem trace_ancestors_characterization (fs : Fs) (d : PyPath) :
    FsDisc.trace_ancestors fs d =
      (ancestorsWalk fs d).flatMap (fun v =>
        (if hasInit fs v then [v] else []) ++ (if hasSetup fs v then [v] else [])) := by
  induction d with
  | nil =>
    simp [FsDisc.trace_ancestors, ancestorsWalk, fs.mount_root]
  | cons a r ih =>
    by_cases hm : fs.mount (a :: r)
    · simp [FsDisc.trace_ancestors, ancestorsWalk, hm]
    · by_cases hs : hasSetup fs (a :: r)
      · have hs' := hs
        unfold hasSetup at hs'
        simp [FsDisc.trace_ancestors, ancestorsWalk, hm, hs, hs', hasInit]
      · have hs' : (fs.isFile ("setup.cfg" :: a :: r) || fs.isFile ("setup.py" :: a :: r)) = false := by
          unfold hasSetup at hs
          simpa using hs
        simp [FsDisc.trace_ancestors, ancestorsWalk, hm, hs, hs', hasInit, ih]

/-- Every ancestor collected by the walk is at most as deep as the start. -/
theorem trace_ancestors_length_le (fs : Fs) :
    ∀ (d x : PyPath), x ∈ FsDisc.trace_ancestors fs d → x.length ≤ d.length := by
  intro d
  induction d with
  | nil =>
    intro x hx
    simp [FsDisc.trace_ancestors, fs.mount_root] at hx
  | cons a r ih =>
    intro x hx
    by_cases hm : fs.mount (a :: r)
    · simp [FsDisc.trace_ancestors, hm] at hx
    · by_cases hi : fs.isFile ("__init__.py" :: a :: r)
      · by_cases hs : (fs.isFile ("setup.cfg" :: a :: r) || fs.isFile ("setup.py" :: a :: r))
        · simp [FsDisc.trace_ancestors, hm, hi, hs] at hx
          simp [hx]
        · simp [FsDisc.trace_ancestors, hm, hi, hs] at hx
          rcases hx with hx | hx
          · simp [hx]
          · exact Nat.le_succ_of_le (ih x hx)
      · by_cases hs : (fs.isFile ("setup.cfg" :: a :: r) || fs.isFile ("setup.py" :: a :: r))
        · simp [FsDisc.trace_ancestors, hm, hi, hs] at hx
          simp [hx]
        · simp [FsDisc.trace_ancestors, hm, hi, hs] at hx
          exact Nat.le_succ_of_le (ih x hx)

/-- When the start itself is collected, it is the first entry. -/
theorem trace_ancestors_head_of_mem (fs : Fs) (d : PyPath)
    (h : d ∈ FsDisc.trace_ancestors fs d) :
    (FsDisc.trace_ancestors fs d).head? = some d := by
  cases d with
  | nil =>
    simp [FsDisc.trace_ancestors, fs.mount_root] at h
  | cons a r =>
    by_cases hm : fs.mount (a :: r)
    · simp [FsDisc.trace_ancestors, hm] at h
    · by_cases hi : fs.isFile ("__init__.py" :: a :: r)
      · simp [FsDisc.trace_ancestors, hm, hi]
      · by_cases hs : (fs.isFile ("setup.cfg" :: a :: r) || fs.isFile ("setup.py" :: a :: r))
        · simp [FsDisc.trace_ancestors, hm, hi, hs]
        · exfalso
          have hmem : (a :: r) ∈ FsDisc.trace_ancestors fs r := by
            simpa [FsDisc.trace_ancestors, hm, hi, hs] using h
          have := trace_ancestors_length_le fs r (a :: r) hmem
          simp at this

/-- Claim C10: the first element of `ConfDisc.trace_ancestors` is always the
`.{project}rc` file inside the starting directory itself, whether or not
that directory contains `__init__.py`. -/
theorem conf_trace_starts_with_own_rc (c : ConfDisc) (fs : Fs) (d : PyPath) :
    (c.trace_ancestors fs d).head? = some (("." ++ c.project ++ "rc") :: d) := by
  simp only [ConfDisc.trace_ancestors]
  by_cases hd : d ∈ FsDisc.trace_ancestors fs d
  · have hh := trace_ancestors_head_of_mem fs d hd
    obtain ⟨t, ht⟩ := List.head?_eq_some_iff.mp hh
    rw [if_pos hd, ht]
    simp
  · rw [if_neg hd]
    simp

/-- Amended claim C2: for a path that is neither `setup.cfg` nor
`pyproject.toml` and no explicit form, `parse_rc` tries yaml, json, toml
and ini in that order, returns the first success with its format name, and
raises the single `BadConf` error exactly when all four parsers fail. -/
theorem parse_rc_fallback_chain (fs : Fs) (config : PyPath) (ct : Content)
    (project : Option String)
    (h1 : pathName config ≠ "setup.cfg") (h2 : pathName config ≠ "pyproject.toml")
    (hr : fs.read config = Except.ok ct) :
    parse_rc fs config project none =
      (match ct.yaml with
       | some c => Except.ok (c, some "yaml")
       | none =>
         match ct.json with
         | some c => Except.ok (c, some "json")
         | none =>
           match ct.toml with
           | some c => Except.ok (c, some "toml")
           | none =>
             match ct.ini with
             | some c => Except.ok (c, some "ini")
             | none => Except.error PyErr.badConf) := by
  unfold parse_rc
  rw [if_neg h1, if_neg h2]
  unfold parse_rc_chain parse_yaml parse_json parse_toml parse_ini
  rw [hr]
  obtain ⟨y, j, t, ts, i, is⟩ := ct
  cases y <;> cases j <;> cases t <;> cases i <;> simp

/-- Witness for C2's amended chain at a concrete json file. -/
theorem parse_rc_fallback_chain_witness :
    parse_rc fsW2 pW2 none none = Except.ok ([("k", "v")], some ("json")) :=
  parse_rc_fallback_chain fsW2 pW2 ctW2 none (by decide) (by decide) rfl

/-- Counterexample to C2 as stated: for the configuration file
`/proj/setup.cfg`, yaml parsing succeeds, yet `parse_rc` returns the ini
project-section with format name `None` instead of the yaml result with
format name `yaml`. -/
theorem parse_rc_setupcfg_counterexample :
    parse_yaml fsC2 pSetup = Except.ok [("a", "1")] ∧
      parse_rc fsC2 pSetup (some ("test")) none = Except.ok ([("b", "2")], none) ∧
      (([("b", "2")] : Config), (none : Option String)) ≠ ([("a", "1")], some ("yaml")) :=
  ⟨rfl, rfl, by decide⟩

/-- Counterexample to C3 as stated: with `TESTRC=/missing/rc` set and that
path not a file, `get_conf` raises `FileNotFoundError` — the error reaches
the caller instead of the location being skipped. -/
theorem get_conf_projectrc_error_propagates :
    ConfDisc.get_conf c3 fs3 env3 {} = Except.error PyErr.fileNotFound := rfl

/-- The loading loop returns the parse-succeeding candidates whenever every
candidate either parses or fails with a filesystem-availability error. -/
theorem collectConfs_ok (fs : Fs) (project : String) :
    ∀ (l : List PyPath) (acc : List (PyPath × Config × Option String)),
      (∀ p ∈ l, isFsReadErr (parse_rc fs p (some project) none) = true ∨
        exceptIsOk (parse_rc fs p (some project) none) = true) →
      collectConfs fs project l acc = Except.ok (availOf fs project l acc) := by
  intro l
  induction l with
  | nil => intro acc h; rfl
  | cons q rest ih =>
    intro acc h
    have hq := h q (List.mem_cons_self q rest)
    have hrest := fun p hp => h p (List.mem_cons_of_mem q hp)
    cases hpr : parse_rc fs q (some project) none with
    | ok v =>
      have e1 : collectConfs fs project (q :: rest) acc =
          collectConfs fs project rest (pyDictInsert acc q v) := by
        simp [collectConfs, hpr]
      have e2 : availOf fs project (q :: rest) acc =
          availOf fs project rest (pyDictInsert acc q v) := by
        simp [availOf, hpr]
      rw [e1, e2]
      exact ih _ hrest
    | error e =>
      rw [hpr] at hq
      have he : isFsReadErr (Except.error e : Except PyErr (Config × Option String)) = true := by
        rcases hq with hq | hq
        · exact hq
        · simp [exceptIsOk] at hq
      have e2 : availOf fs project (q :: rest) acc = availOf fs project rest acc := by
        simp [availOf, hpr]
      cases e
      case permission =>
        have e1 : collectConfs fs project (q :: rest) acc = collectConfs fs project rest acc := by
          simp [collectConfs, hpr]
        rw [e1, e2]; exact ih _ hrest
      case fileNotFound =>
        have e1 : collectConfs fs project (q :: rest) acc = collectConfs fs project rest acc := by
          simp [collectConfs, hpr]
        rw [e1, e2]; exact ih _ hrest
      case isADirectory =>
        have e1 : collectConfs fs project (q :: rest) acc = collectConfs fs project rest acc := by
          simp [collectConfs, hpr]
        rw [e1, e2]; exact ih _ hrest
      all_goals simp [isFsReadErr] at he

/-- Amended claim C3: in `read_config`'s loading loop, filesystem errors on
a candidate (missing file, permission denied, path is a directory) are
caught and the location skipped, and the configurations of the remaining
readable files are returned.  (`get_conf` itself is the exception the
counterexample exhibits: a `PROJECTRC` variable naming a missing file
raises.) -/
theorem read_config_skips_fs_errors (c : ConfDisc) (fs : Fs) (env : Env) (kw : Kwargs)
    (confs : List PyPath)
    (hg : c.get_conf fs env { kw with perm := setDefaultMode kw.perm ("4") } =
      Except.ok confs)
    (h : ∀ p ∈ confs, isFsReadErr (parse_rc fs p (some c.project) none) = true ∨
      exceptIsOk (parse_rc fs p (some c.project) none) = true) :
    c.read_config fs env false kw = Except.ok (ReadOut.confs (availOf fs c.project confs [])) := by
  have hcc := collectConfs_ok fs c.project confs [] h
  simp only [ConfDisc.read_config, hg, hcc]
  rfl

/-- Witness for C3's amended claim: one unreadable candidate is skipped and
the remaining readable file's configuration is returned. -/
theorem read_config_skips_fs_errors_witness :
    ConfDisc.read_config c3 fs3w env3w false {} =
      Except.ok (ReadOut.confs (availOf fs3w ("test") [pA3, pB3] [])) :=
  read_config_skips_fs_errors c3 fs3w env3w {} [pA3, pB3] rfl (by decide)

/-- Claim C4 (code bug): at a state with one readable yaml candidate, the
mapping `read_config` returns binds the file to the pair
`(parsed dict, 'yaml')` — not to the parsed dict its annotation and
docstring promise — and `flatten=True` raises from `dict.update` on that
pair instead of merging by precedence. -/
theorem read_config_pair_values_and_flatten_raises :
    ConfDisc.read_config c3 fs4 env3w false {} =
        Except.ok (ReadOut.confs [(pA3, ([("a", "1")], some ("yaml")))]) ∧
      ConfDisc.read_config c3 fs4 env3w true {} = Except.error PyErr.valueError :=
  ⟨rfl, rfl⟩

/-- The write loop returns the result of `write_rc` at the first path whose
attempt is not skipped by a filesystem error, `False` when every attempt is
skipped. -/
theorem writeLoop_find (fs : Fs) (data : Config) (force : String) :
    ∀ (l : List PyPath),
      writeLoop fs data force l =
        (match l.find? (fun p => !(isFsSkipErr (write_rc fs data p none force))) with
         | some p => write_rc fs data p none force
         | none => Except.ok (false, fs)) := by
  intro l
  induction l with
  | nil => rfl
  | cons q rest ih =>
    cases hw : write_rc fs data q none force with
    | ok v => simp [writeLoop, List.find?_cons, hw, isFsSkipErr]
    | error e =>
      cases e <;> simp [writeLoop, List.find?_cons, hw, isFsSkipErr, ih]

/-- Amended claim C8: `write_config` tries the safe paths least dominant
first and returns the result of `write_rc` at the first path that does not
raise a filesystem error — `False`, with no further paths tried, when that
target exists and `force='fail'` — and returns `False` when every path
raises or none exist. -/
theorem write_config_first_attempt (c : ConfDisc) (fs : Fs) (env : Env) (data : Config)
    (force : String) (kw : Kwargs) :
    c.write_config fs env data force { kw with ext := none } =
      (match c.safe_config fs env { kw with ext := none } with
       | Except.error e => Except.error e
       | Except.ok config_l =>
         match config_l.reverse.find?
             (fun p => !(isFsSkipErr (write_rc fs data p none force))) with
         | some p => write_rc fs data p none force
         | none => Except.ok (false, fs)) := by
  unfold ConfDisc.write_config
  cases hs : c.safe_config fs env { kw with ext := none } with
  | error e => simp [hs]
  | ok config_l => simp [hs, writeLoop_find fs data force config_l.reverse]

/-- Counterexample to C8 as stated: the least dominant safe path exists, so
`write_rc` returns `False` there without raising and `write_config` stops
with `False` — even though writing at the remaining (custom) safe path
would succeed. -/
theorem write_config_early_false_counterexample :
    (ConfDisc.write_config c3 fs8 env3w [("x", "y")] ("fail") kw8).map Prod.fst =
        Except.ok false ∧
      ConfDisc.safe_config c3 fs8 env3w kw8 = Except.ok [pC8, pA3] ∧
      (write_rc fs8 [("x", "y")] pC8 none ("fail")).map Prod.fst = Except.ok true :=
  ⟨rfl, rfl, rfl⟩
